import Mathlib

/-!
Shallow embedding of the animation / error-handling core of `src/app.js`
(personal landing page).  DOM elements are modelled as records of inline
style properties and a class list; `setTimeout` calls are modelled as a
list of armed timers (delay plus which target the callback reveals);
`console.log` calls are modelled as a list of log strings.
-/

namespace LandingPage

/-- Inline style properties touched by `app.js`.  A `none` field means the
inline property was never assigned. -/
structure Style where
  opacity : Option String := none
  transform : Option String := none
  transition : Option String := none
  animation : Option String := none
  animationDuration : Option String := none
  animationName : Option String := none
  deriving Repr, DecidableEq

/-- A DOM element as the script sees it: its inline style and its class
list (document classes, in order). -/
structure Elem where
  style : Style := {}
  classes : List String := []
  deriving Repr, DecidableEq

/-- An element with every style property unassigned and no classes. -/
def blankElem : Elem := {}

/-- Models `classList.contains c`. -/
def hasClass (c : String) (cs : List String) : Bool := decide (c ∈ cs)

/-- Models `classList.add c`: appends the token only when it is absent. -/
def classAdd (c : String) (cs : List String) : List String :=
  if hasClass c cs then cs else cs ++ [c]

/-- The two target groups of the reveal sequencer (`app.js` lines 104-135):
link cards and social icons. -/
inductive Group where
  | card
  | icon
  deriving Repr, DecidableEq

/-- Source `app.js` lines 107-108: initial hidden state of a link card. -/
def cardInitial (e : Elem) : Elem :=
  { e with style := { e.style with
      opacity := some "0",
      transform := some "translateY(30px)" } }

/-- Source `app.js` lines 112-114: final revealed state of a link card, set inside
its timer callback. -/
def cardReveal (e : Elem) : Elem :=
  { e with style := { e.style with
      transition := some "all 0.6s cubic-bezier(0.4, 0, 0.2, 1)",
      opacity := some "1",
      transform := some "translateY(0)" } }

/-- Source `app.js` lines 124-125: initial hidden state of a social icon. -/
def iconInitial (e : Elem) : Elem :=
  { e with style := { e.style with
      opacity := some "0",
      transform := some "translateY(20px) scale(0.8)" } }

/-- Source `app.js` lines 129-131: final revealed state of a social icon, set
inside its timer callback. -/
def iconReveal (e : Elem) : Elem :=
  { e with style := { e.style with
      transition := some "all 0.5s cubic-bezier(0.4, 0, 0.2, 1)",
      opacity := some "1",
      transform := some "translateY(0) scale(1)" } }

/-- Source `app.js` line 115: `800 + (index * 150)`. -/
def cardDelay (i : Nat) : Nat := 800 + i * 150

/-- Source `app.js` line 132: `1400 + (index * 100)`. -/
def iconDelay (i : Nat) : Nat := 1400 + i * 100

/-- Base delay of a group (`800` for cards, `1400` for icons). -/
def baseDelay : Group → Nat
  | Group.card => 800
  | Group.icon => 1400

/-- Per-item stagger of a group (`150` for cards, `100` for icons). -/
def perItemDelay : Group → Nat
  | Group.card => 150
  | Group.icon => 100

/-- An armed `setTimeout`: which target (group and sequence index) its
callback reveals, and its delay in milliseconds. -/
structure Timer where
  group : Group
  index : Nat
  delay : Nat
  deriving Repr, DecidableEq

/-- Timers armed by the card loop: one per card, delay `800 + i * 150`. -/
def cardTimers (n : Nat) : List Timer :=
  (List.range n).map (fun i => { group := Group.card, index := i, delay := cardDelay i })

/-- Timers armed by the icon loop: one per icon, delay `1400 + i * 100`. -/
def iconTimers (n : Nat) : List Timer :=
  (List.range n).map (fun i => { group := Group.icon, index := i, delay := iconDelay i })

/-- Result of `setupPageLoadAnimations`: the two element lists after the
synchronous pass (initial hidden state applied), the armed timers, and
the emitted log lines. -/
structure ScheduleResult where
  cards : List Elem
  icons : List Elem
  timers : List Timer
  logs : List String
  deriving Repr, DecidableEq

/-- Card half of `setupPageLoadAnimations` (`app.js` lines 104-118).  The
`Option` input models the `Elements.linkCards` cache, which is `null`
until `cacheDOMElements` runs; the JS guard `if (linkCards &&
linkCards.length > 0)` skips both `null` and an empty collection. -/
def schedCards : Option (List Elem) → List Elem × List Timer × List String
  | some cards =>
      if cards.length > 0 then
        (cards.map cardInitial, cardTimers cards.length,
         ["🎬 " ++ toString cards.length ++ " link cards animated with staggered timing"])
      else (cards, [], [])
  | none => ([], [], [])

/-- Icon half of `setupPageLoadAnimations` (`app.js` lines 121-135),
guarded by `if (socialIcons && socialIcons.length > 0)`. -/
def schedIcons : Option (List Elem) → List Elem × List Timer × List String
  | some icons =>
      if icons.length > 0 then
        (icons.map iconInitial, iconTimers icons.length,
         ["🎬 " ++ toString icons.length ++ " social icons animated"])
      else (icons, [], [])
  | none => ([], [], [])

/-- Models `AnimationController.setupPageLoadAnimations` (`app.js` lines 99-136):
synchronously hides each present target and arms one timer per target;
card work happens before icon work. -/
def setupPageLoadAnimations (cardsOpt iconsOpt : Option (List Elem)) : ScheduleResult :=
  let c := schedCards cardsOpt
  let i := schedIcons iconsOpt
  { cards := c.1, icons := i.1, timers := c.2.1 ++ i.2.1, logs := c.2.2 ++ i.2.2 }

/-- The timers armed when exactly one group has `n` (blank) targets and
the other group is empty. -/
def singleGroupTimers (g : Group) (n : Nat) : List Timer :=
  match g with
  | Group.card => (setupPageLoadAnimations (some (List.replicate n blankElem)) (some [])).timers
  | Group.icon => (setupPageLoadAnimations (some []) (some (List.replicate n blankElem))).timers

/-- Source `app.js` lines 91-93: the per-element effect of `disableAnimations`. -/
def disableElem (e : Elem) : Elem :=
  { e with style := { e.style with
      opacity := some "1",
      transform := some "translateY(0)",
      animation := some "none" } }

/-- Result of `AnimationController.init`: the element collections after
the synchronous pass, the armed timers, and the log lines.  `cards` and
`icons` are the `.link-card` / `.social-icon` collections; `others` are
the remaining elements matched by the `disableAnimations` selector
(`.hero-section, .social-section, .footer`). -/
structure InitResult where
  cards : List Elem
  icons : List Elem
  others : List Elem
  timers : List Timer
  logs : List String
  deriving Repr, DecidableEq

/-- Models `AnimationController.init` (`app.js` lines 76-85): when animations are
disabled it runs `disableAnimations` (lines 88-96) over every element the
selector `.link-card, .social-icon, .hero-section, .social-section,
.footer` matches and returns, arming nothing; otherwise it runs the
page-load sequencer. -/
def init (enabled : Bool) (cards icons others : List Elem) : InitResult :=
  if enabled then
    let r := setupPageLoadAnimations (some cards) (some icons)
    { cards := r.cards, icons := r.icons, others := others,
      timers := r.timers, logs := r.logs }
  else
    { cards := cards.map disableElem,
      icons := icons.map disableElem,
      others := others.map disableElem,
      timers := [],
      logs := ["🎭 Animations disabled for accessibility"] }

/-- One invocation of the `IntersectionObserver` callback body for the
observed element (`app.js` lines 218-221): when the entry intersects and
the element is not yet marked `animated`, add `fade-in` then `animated`. -/
def observerStep (isIntersecting : Bool) (e : Elem) : Elem :=
  if isIntersecting && !(hasClass "animated" e.classes) then
    { e with classes := classAdd "animated" (classAdd "fade-in" e.classes) }
  else e

/-- Models `AnimationController.setupScrollAnimations` (`app.js` lines 211-230):
returns the list of elements handed to `observer.observe`; a `null`
footer is skipped by the `if (footer)` guard. -/
def setupScrollAnimations (footerOpt : Option Elem) : List Elem :=
  match footerOpt with
  | some footer => [footer]
  | none => []

/-- Occurrences of a class token in a class list. -/
def countClass (c : String) (cs : List String) : Nat :=
  (cs.filter (fun x => decide (x = c))).length

/-- Source `app.js` lines 193-197 (entering branch of `handleCardHover` restricted
to the card element itself): sets the pulse animation properties.  The
arrow and logo sub-elements are separate nodes and are not part of the
card's own style. -/
def cardHoverEnter (e : Elem) : Elem :=
  { e with style := { e.style with
      animationDuration := some "2s",
      animationName := some "subtle-pulse" } }

/-- Source `app.js` line 206 (leaving branch of `handleCardHover` on the card). -/
def cardHoverLeave (e : Elem) : Elem :=
  { e with style := { e.style with animationName := some "none" } }

/-- Source `app.js` line 169: icon `mouseenter` handler. -/
def iconHoverEnter (e : Elem) : Elem :=
  { e with style := { e.style with transform := some "translateY(-4px) scale(1.1)" } }

/-- Source `app.js` line 173: icon `mouseleave` handler. -/
def iconHoverLeave (e : Elem) : Elem :=
  { e with style := { e.style with transform := some "translateY(0) scale(1)" } }

/-- Replace the element at position `i` by `f` of it; out-of-range is a
no-op (mirrors that a timer or handler only ever touches its own node). -/
def modifyIdx (f : Elem → Elem) : Nat → List Elem → List Elem
  | _, [] => []
  | 0, x :: xs => f x :: xs
  | i + 1, x :: xs => x :: modifyIdx f i xs

/-- The mutable page state the armed callbacks operate on: the card list
and the icon list. -/
structure PageState where
  cards : List Elem
  icons : List Elem
  deriving Repr, DecidableEq

/-- The element list of a group. -/
def groupElems (g : Group) (s : PageState) : List Elem :=
  match g with
  | Group.card => s.cards
  | Group.icon => s.icons

/-- A timer callback firing (`app.js` lines 111-115 resp. 128-132): the
timer's own target transitions to its revealed state. -/
def fireTimer (t : Timer) (s : PageState) : PageState :=
  match t.group with
  | Group.card => { s with cards := modifyIdx cardReveal t.index s.cards }
  | Group.icon => { s with icons := modifyIdx iconReveal t.index s.icons }

/-- The deferred callbacks that can run after `setupPageLoadAnimations`
and `setupHoverEffects` return: a reveal timer firing, or a hover
handler running on a card or an icon. -/
inductive Event where
  | fire (t : Timer)
  | cardHover (i : Nat) (entering : Bool)
  | iconHover (i : Nat) (entering : Bool)
  deriving Repr, DecidableEq

/-- Execute one callback on the page state. -/
def applyEvent : Event → PageState → PageState
  | Event.fire t, s => fireTimer t s
  | Event.cardHover i true, s => { s with cards := modifyIdx cardHoverEnter i s.cards }
  | Event.cardHover i false, s => { s with cards := modifyIdx cardHoverLeave i s.cards }
  | Event.iconHover i true, s => { s with icons := modifyIdx iconHoverEnter i s.icons }
  | Event.iconHover i false, s => { s with icons := modifyIdx iconHoverLeave i s.icons }

/-- The per-target Hidden/Visible flag: a target is Visible exactly when
its inline opacity is the string written by its reveal callback. -/
def visible (g : Group) (i : Nat) (s : PageState) : Bool :=
  match (groupElems g s)[i]? with
  | some e => decide (e.style.opacity = some "1")
  | none => false

/-- An `img` element: class list, `src`, `alt`. -/
structure Img where
  classes : List String := []
  src : String := ""
  alt : String := ""
  deriving Repr, DecidableEq

/-- Source `app.js` line 291: the generated-avatar fallback source. -/
def fallbackSrc : String :=
  "https://ui-avatars.com/api/?name=Yaswanth+Reddy+Arumulla&size=400&background=4F46E5&color=ffffff&font-size=0.33&bold=true&format=svg"

/-- Source `app.js` line 292: the fallback alt text. -/
def fallbackAlt : String :=
  "Yaswanth Reddy Arumulla - DevOps Engineer (Generated Avatar)"

/-- Models `ErrorHandler.handleImageError` (`app.js` lines 288-295): only an
image carrying the `profile-image` class gets the fallback source and
alt; any other image is returned untouched. -/
def handleImageError (img : Img) : Img :=
  if hasClass "profile-image" img.classes then
    { img with src := fallbackSrc, alt := fallbackAlt }
  else img

/-! ## Helper lemmas -/

theorem hasClass_classAdd_self (c : String) (l : List String) :
    hasClass c (classAdd c l) = true := by
  by_cases h : c ∈ l <;> simp [classAdd, hasClass, h]

theorem hasClass_classAdd_other {c d : String} (l : List String) (h : c ≠ d) :
    hasClass c (classAdd d l) = hasClass c l := by
  by_cases hd : d ∈ l <;> simp [classAdd, hasClass, hd, h]

theorem countClass_eq_zero_of_not_hasClass {c : String} {l : List String}
    (h : hasClass c l = false) : countClass c l = 0 := by
  simp only [hasClass, decide_eq_false_iff_not] at h
  simp only [countClass, List.length_eq_zero, List.filter_eq_nil_iff]
  intro a ha
  simp only [decide_eq_true_eq]
  intro heq
  exact h (heq ▸ ha)

theorem countClass_classAdd_self_of_absent {c : String} {l : List String}
    (h : hasClass c l = false) : countClass c (classAdd c l) = countClass c l + 1 := by
  unfold classAdd
  rw [h]
  simp [countClass, List.filter_append]

theorem observerStep_noop_of_marked {e : Elem} (b : Bool)
    (h : hasClass "animated" e.classes = true) : observerStep b e = e := by
  unfold observerStep
  rw [h]
  simp

theorem singleGroupTimers_eq (g : Group) (n : Nat) :
    singleGroupTimers g n =
      (List.range n).map (fun i =>
        { group := g, index := i, delay := baseDelay g + i * perItemDelay g }) := by
  cases g <;> cases n <;>
    simp [singleGroupTimers, setupPageLoadAnimations, schedCards, schedIcons,
      cardTimers, iconTimers, cardDelay, iconDelay, baseDelay, perItemDelay]

theorem singleGroupTimers_getElem (g : Group) {n i : Nat} (h : i < n) :
    (singleGroupTimers g n)[i]? =
      some { group := g, index := i, delay := baseDelay g + i * perItemDelay g } := by
  rw [singleGroupTimers_eq, List.getElem?_map]
  simp [List.getElem?_range, h]

theorem timers_append_eq (cards icons : List Elem) :
    (setupPageLoadAnimations (some cards) (some icons)).timers =
      cardTimers cards.length ++ iconTimers icons.length := by
  cases cards <;> cases icons <;>
    simp [setupPageLoadAnimations, schedCards, schedIcons, cardTimers, iconTimers]

theorem countP_range_eq_value (i n : Nat) :
    (List.range n).countP (fun j => decide (j = i)) = if i < n then 1 else 0 := by
  induction n with
  | zero => simp
  | succ n ih =>
    rw [List.range_succ, List.countP_append, ih]
    by_cases h : i < n
    · have hne : ¬ (n = i) := by omega
      have hlt : i < n + 1 := by omega
      simp [List.countP_cons, h, hne, hlt]
    · by_cases h2 : i = n
      · subst h2
        simp [List.countP_cons, h, Nat.lt_succ_self]
      · have hge : ¬ i < n + 1 := by omega
        simp [List.countP_cons, h, hge, Ne.symm h2]

/-! ## Claim theorems -/

/-- C1: the timer armed for the target at 0-based index `i` of group `g`
has delay `baseDelay g + i * perItemDelay g` (800 + 150 i for cards,
1400 + 100 i for icons); in particular 3 cards fire at 800, 950, 1100 ms
and 2 icons fire at 1400, 1500 ms. -/
theorem staggered_fire_times (g : Group) (n i : Nat) (h : i < n) :
    (singleGroupTimers g n)[i]? =
      some { group := g, index := i, delay := baseDelay g + i * perItemDelay g } ∧
    (singleGroupTimers Group.card 3).map Timer.delay = [800, 950, 1100] ∧
    (singleGroupTimers Group.icon 2).map Timer.delay = [1400, 1500] := by
  refine ⟨singleGroupTimers_getElem g h, ?_, ?_⟩ <;>
    simp [singleGroupTimers_eq, List.range_succ, baseDelay, perItemDelay]

/-- Witness for C1: the middle card of three fires at 950 ms. -/
theorem staggered_fire_times_witness :
    (singleGroupTimers Group.card 3)[1]? =
      some { group := Group.card, index := 1, delay := 950 } := by
  simpa using (staggered_fire_times Group.card 3 1 (by decide)).1

/-- C4: scheduling `n` targets of one group arms exactly `n` deferred
reveals, their fire offsets strictly increase in index order, and the
last target's delay is `baseDelay g + perItemDelay g * (n - 1)`. -/
theorem staggered_count_strict_mono (g : Group) (n : Nat) :
    (singleGroupTimers g n).length = n ∧
    (∀ i j ti tj, i < j → j < n →
      (singleGroupTimers g n)[i]? = some ti →
      (singleGroupTimers g n)[j]? = some tj →
      ti.delay < tj.delay) ∧
    (0 < n → ∀ t, (singleGroupTimers g n)[n - 1]? = some t →
      t.delay = baseDelay g + perItemDelay g * (n - 1)) := by
  refine ⟨?_, ?_, ?_⟩
  · rw [singleGroupTimers_eq]
    simp
  · intro i j ti tj hij hj hti htj
    rw [singleGroupTimers_getElem g (lt_trans hij hj)] at hti
    rw [singleGroupTimers_getElem g hj] at htj
    cases Option.some.inj hti
    cases Option.some.inj htj
    cases g <;> simp only [baseDelay, perItemDelay] <;> omega
  · intro hn t ht
    rw [singleGroupTimers_getElem g (show n - 1 < n by omega)] at ht
    cases Option.some.inj ht
    simp [Nat.mul_comm]

/-- Witness for C4: with three cards, timer 0 (800 ms) fires strictly
before timer 1 (950 ms). -/
theorem staggered_count_strict_mono_witness :
    ({ group := Group.card, index := 0, delay := 800 } : Timer).delay <
      ({ group := Group.card, index := 1, delay := 950 } : Timer).delay :=
  (staggered_count_strict_mono Group.card 3).2.1 0 1 _ _ (by decide) (by decide)
    (by decide) (by decide)

/-- C5: every card starts hidden at opacity 0 with a pure vertical offset
(no scale factor), every icon starts hidden at opacity 0 with a vertical
offset and a 0.8 scale reduction, and the reveal callback sets opacity 1,
zero offset and unit scale together with a fixed-duration cubic-bezier
eased transition (0.6 s for cards, 0.5 s for icons). -/
theorem initial_and_final_reveal_states (e : Elem) :
    (cardInitial e).style.opacity = some "0" ∧
    (cardInitial e).style.transform = some "translateY(30px)" ∧
    (iconInitial e).style.opacity = some "0" ∧
    (iconInitial e).style.transform = some "translateY(20px) scale(0.8)" ∧
    (cardReveal e).style.opacity = some "1" ∧
    (cardReveal e).style.transform = some "translateY(0)" ∧
    (cardReveal e).style.transition = some "all 0.6s cubic-bezier(0.4, 0, 0.2, 1)" ∧
    (iconReveal e).style.opacity = some "1" ∧
    (iconReveal e).style.transform = some "translateY(0) scale(1)" ∧
    (iconReveal e).style.transition = some "all 0.5s cubic-bezier(0.4, 0, 0.2, 1)" := by
  refine ⟨rfl, rfl, rfl, rfl, rfl, rfl, rfl, rfl, rfl, rfl⟩

/-- C6: scheduling an empty target sequence is a no-op: no element is
touched, zero timers are armed, and no log line is produced (and, the
embedding being a total function, no exception is possible). -/
theorem empty_schedule_noop :
    setupPageLoadAnimations (some []) (some []) =
      { cards := [], icons := [], timers := [], logs := [] } := rfl

/-- C10: on an image load error, the handler substitutes the fallback
source and alt text exactly when the image carries the `profile-image`
class, leaving its class list alone; any other image is returned
completely unchanged. -/
theorem image_error_fallback_only_profile (img : Img) :
    (hasClass "profile-image" img.classes = true →
      (handleImageError img).src = fallbackSrc ∧
      (handleImageError img).alt = fallbackAlt ∧
      (handleImageError img).classes = img.classes) ∧
    (hasClass "profile-image" img.classes = false →
      handleImageError img = img) := by
  constructor
  · intro h
    simp [handleImageError, h]
  · intro h
    simp [handleImageError, h]

/-- Witness for C10 at two concrete images. -/
theorem image_error_fallback_only_profile_witness :
    (handleImageError { classes := ["profile-image"], src := "x", alt := "y" }).src
      = fallbackSrc ∧
    handleImageError { classes := ["hero"], src := "x", alt := "y" }
      = { classes := ["hero"], src := "x", alt := "y" } :=
  ⟨((image_error_fallback_only_profile _).1 (by decide)).1,
   (image_error_fallback_only_profile _).2 (by decide)⟩

/-- C3: the watched-element trigger is idempotent.  One intersecting
callback on a yet-unmarked element adds the `animated` marker exactly
once; after that, any further callback (intersecting or not) is a no-op
returning the element unchanged. -/
theorem watched_trigger_idempotent (e : Elem) (b : Bool) :
    observerStep b (observerStep true e) = observerStep true e ∧
    hasClass "animated" (observerStep true e).classes = true ∧
    (hasClass "animated" e.classes = false →
      countClass "animated" (observerStep true e).classes = 1) := by
  have hmarked : hasClass "animated" (observerStep true e).classes = true := by
    unfold observerStep
    by_cases h : hasClass "animated" e.classes
    · simp [h]
    · simp [h, hasClass_classAdd_self]
  refine ⟨observerStep_noop_of_marked b hmarked, hmarked, ?_⟩
  intro h
  have hfade : hasClass "animated" (classAdd "fade-in" e.classes) = false := by
    rw [hasClass_classAdd_other e.classes (show ("animated" : String) ≠ "fade-in" by decide)]
    exact h
  have hstep : observerStep true e =
      { e with classes := classAdd "animated" (classAdd "fade-in" e.classes) } := by
    unfold observerStep
    rw [h]
    simp
  rw [hstep]
  show countClass "animated" (classAdd "animated" (classAdd "fade-in" e.classes)) = 1
  rw [countClass_classAdd_self_of_absent hfade,
      countClass_eq_zero_of_not_hasClass hfade]

/-- Witness for C3 at a concrete element. -/
theorem watched_trigger_idempotent_witness :
    observerStep true (observerStep true { classes := ["footer"] }) =
      observerStep true { classes := ["footer"] } ∧
    countClass "animated" (observerStep true { classes := ["footer"] }).classes = 1 :=
  ⟨(watched_trigger_idempotent { classes := ["footer"] } true).1,
   (watched_trigger_idempotent { classes := ["footer"] } true).2.2 (by decide)⟩

/-- C2: with the animation flag false, `init` immediately puts every
element matched by the disable selector into its final visible state
(opacity 1, zero offset, animation none) and arms zero timers. -/
theorem disabled_init_immediate_final_state (cards icons others : List Elem) :
    (init false cards icons others).timers = [] ∧
    (∀ e ∈ (init false cards icons others).cards ++
           (init false cards icons others).icons ++
           (init false cards icons others).others,
      e.style.opacity = some "1" ∧
      e.style.transform = some "translateY(0)" ∧
      e.style.animation = some "none") := by
  have hinit : init false cards icons others =
      { cards := cards.map disableElem, icons := icons.map disableElem,
        others := others.map disableElem, timers := [],
        logs := ["🎭 Animations disabled for accessibility"] } := rfl
  constructor
  · rfl
  · intro e he
    simp only [hinit, List.mem_append, List.mem_map] at he
    rcases he with (⟨x, _, rfl⟩ | ⟨x, _, rfl⟩) | ⟨x, _, rfl⟩ <;>
      exact ⟨rfl, rfl, rfl⟩

/-- Witness for C2 at a concrete page with one element per collection. -/
theorem disabled_init_immediate_final_state_witness :
    (init false [blankElem] [blankElem] [blankElem]).timers = [] ∧
    ∀ e ∈ (init false [blankElem] [blankElem] [blankElem]).cards ++
          (init false [blankElem] [blankElem] [blankElem]).icons ++
          (init false [blankElem] [blankElem] [blankElem]).others,
      e.style.opacity = some "1" :=
  ⟨(disabled_init_immediate_final_state [blankElem] [blankElem] [blankElem]).1,
   fun e he =>
     ((disabled_init_immediate_final_state [blankElem] [blankElem] [blankElem]).2 e he).1⟩

/-- C9: with animations enabled, the scheduling pass synchronously maps
every present target to its hidden initial state (opacity 0) before any
timer can fire, and that pass leaves the `transition` property exactly as
it was — the eased transition string is assigned only by the reveal
callback. -/
theorem hidden_sync_transition_only_at_reveal
    (cards icons : List Elem) (i : Nat) (e : Elem) :
    (cards[i]? = some e →
      (setupPageLoadAnimations (some cards) (some icons)).cards[i]? =
        some (cardInitial e)) ∧
    (icons[i]? = some e →
      (setupPageLoadAnimations (some cards) (some icons)).icons[i]? =
        some (iconInitial e)) ∧
    (cardInitial e).style.opacity = some "0" ∧
    (cardInitial e).style.transition = e.style.transition ∧
    (iconInitial e).style.opacity = some "0" ∧
    (iconInitial e).style.transition = e.style.transition ∧
    (cardReveal e).style.transition = some "all 0.6s cubic-bezier(0.4, 0, 0.2, 1)" ∧
    (iconReveal e).style.transition = some "all 0.5s cubic-bezier(0.4, 0, 0.2, 1)" := by
  refine ⟨?_, ?_, rfl, rfl, rfl, rfl, rfl, rfl⟩
  · intro h
    have hlen : 0 < cards.length := by
      cases cards
      · simp at h
      · simp
    have hc : (setupPageLoadAnimations (some cards) (some icons)).cards =
        cards.map cardInitial := by
      simp [setupPageLoadAnimations, schedCards, hlen]
    rw [hc, List.getElem?_map, h]
    rfl
  · intro h
    have hlen : 0 < icons.length := by
      cases icons
      · simp at h
      · simp
    have hc : (setupPageLoadAnimations (some cards) (some icons)).icons =
        icons.map iconInitial := by
      simp [setupPageLoadAnimations, schedIcons, hlen]
    rw [hc, List.getElem?_map, h]
    rfl

/-- Witness for C9 on a one-card, one-icon page. -/
theorem hidden_sync_transition_only_at_reveal_witness :
    (setupPageLoadAnimations (some [blankElem]) (some [blankElem])).cards[0]? =
      some (cardInitial blankElem) ∧
    (setupPageLoadAnimations (some [blankElem]) (some [blankElem])).icons[0]? =
      some (iconInitial blankElem) :=
  ⟨(hidden_sync_transition_only_at_reveal [blankElem] [blankElem] 0 blankElem).1 rfl,
   (hidden_sync_transition_only_at_reveal [blankElem] [blankElem] 0 blankElem).2.1 rfl⟩

/-- C8: every sequencer operation is a total function over its whole
input domain, and a missing collection is skipped without error: a `null`
card cache behaves exactly like an empty card list, a `null` icon cache
like an empty icon list, and a missing watched footer element means
nothing is observed. -/
theorem sequencer_total_missing_skipped (cards icons : List Elem) :
    setupPageLoadAnimations none (some icons) =
      setupPageLoadAnimations (some []) (some icons) ∧
    setupPageLoadAnimations (some cards) none =
      setupPageLoadAnimations (some cards) (some []) ∧
    setupScrollAnimations none = [] := by
  refine ⟨rfl, rfl, rfl⟩

theorem getElem?_modifyIdx_self (f : Elem → Elem) (i : Nat) (xs : List Elem) :
    (modifyIdx f i xs)[i]? = xs[i]?.map f := by
  induction xs generalizing i with
  | nil => simp [modifyIdx]
  | cons x xs ih =>
    cases i with
    | zero => simp [modifyIdx]
    | succ n => simp [modifyIdx, ih]

theorem getElem?_modifyIdx_ne (f : Elem → Elem) {i j : Nat} (xs : List Elem)
    (h : i ≠ j) : (modifyIdx f i xs)[j]? = xs[j]? := by
  induction xs generalizing i j with
  | nil => simp [modifyIdx]
  | cons x xs ih =>
    cases i with
    | zero =>
      cases j with
      | zero => exact absurd rfl h
      | succ m => simp [modifyIdx]
    | succ n =>
      cases j with
      | zero => simp [modifyIdx]
      | succ m =>
        simp only [modifyIdx, List.getElem?_cons_succ]
        exact ih (fun hnm => h (by rw [hnm]))

theorem visible_update_cards_opacity_preserving
    (f : Elem → Elem) (hf : ∀ e, (f e).style.opacity = e.style.opacity)
    (s : PageState) (j : Nat) (g : Group) (i : Nat) :
    visible g i { s with cards := modifyIdx f j s.cards } = visible g i s := by
  cases g with
  | card =>
    by_cases hij : j = i
    · subst hij
      unfold visible groupElems
      rw [getElem?_modifyIdx_self]
      cases s.cards[j]? <;> simp [hf]
    · unfold visible groupElems
      rw [getElem?_modifyIdx_ne _ _ hij]
  | icon => rfl

theorem visible_update_icons_opacity_preserving
    (f : Elem → Elem) (hf : ∀ e, (f e).style.opacity = e.style.opacity)
    (s : PageState) (j : Nat) (g : Group) (i : Nat) :
    visible g i { s with icons := modifyIdx f j s.icons } = visible g i s := by
  cases g with
  | card => rfl
  | icon =>
    by_cases hij : j = i
    · subst hij
      unfold visible groupElems
      rw [getElem?_modifyIdx_self]
      cases s.icons[j]? <;> simp [hf]
    · unfold visible groupElems
      rw [getElem?_modifyIdx_ne _ _ hij]

theorem visible_applyEvent_cases (ev : Event) (s : PageState) (g : Group) (i : Nat) :
    visible g i (applyEvent ev s) = visible g i s ∨
    (visible g i (applyEvent ev s) = true ∧ ∃ d, ev = Event.fire ⟨g, i, d⟩) := by
  cases ev with
  | fire t =>
    obtain ⟨tg, ti, td⟩ := t
    cases tg with
    | card =>
      cases g with
      | icon => exact Or.inl rfl
      | card =>
        by_cases hij : ti = i
        · subst hij
          cases hc : s.cards[ti]? with
          | none =>
            refine Or.inl ?_
            show visible Group.card ti { s with cards := modifyIdx cardReveal ti s.cards } = _
            unfold visible groupElems
            rw [getElem?_modifyIdx_self, hc]
            rfl
          | some e =>
            refine Or.inr ⟨?_, td, rfl⟩
            show visible Group.card ti { s with cards := modifyIdx cardReveal ti s.cards } = true
            unfold visible groupElems
            rw [getElem?_modifyIdx_self, hc]
            rfl
        · refine Or.inl ?_
          show visible Group.card i { s with cards := modifyIdx cardReveal ti s.cards } = _
          unfold visible groupElems
          rw [getElem?_modifyIdx_ne _ _ hij]
    | icon =>
      cases g with
      | card => exact Or.inl rfl
      | icon =>
        by_cases hij : ti = i
        · subst hij
          cases hc : s.icons[ti]? with
          | none =>
            refine Or.inl ?_
            show visible Group.icon ti { s with icons := modifyIdx iconReveal ti s.icons } = _
            unfold visible groupElems
            rw [getElem?_modifyIdx_self, hc]
            rfl
          | some e =>
            refine Or.inr ⟨?_, td, rfl⟩
            show visible Group.icon ti { s with icons := modifyIdx iconReveal ti s.icons } = true
            unfold visible groupElems
            rw [getElem?_modifyIdx_self, hc]
            rfl
        · refine Or.inl ?_
          show visible Group.icon i { s with icons := modifyIdx iconReveal ti s.icons } = _
          unfold visible groupElems
          rw [getElem?_modifyIdx_ne _ _ hij]
  | cardHover j b =>
    cases b with
    | true =>
      exact Or.inl (visible_update_cards_opacity_preserving cardHoverEnter (fun e => rfl) s j g i)
    | false =>
      exact Or.inl (visible_update_cards_opacity_preserving cardHoverLeave (fun e => rfl) s j g i)
  | iconHover j b =>
    cases b with
    | true =>
      exact Or.inl (visible_update_icons_opacity_preserving iconHoverEnter (fun e => rfl) s j g i)
    | false =>
      exact Or.inl (visible_update_icons_opacity_preserving iconHoverLeave (fun e => rfl) s j g i)

/-- C7: the per-target Hidden/Visible flag is monotone (no callback ever
moves a Visible target back to Hidden), the only callback able to change
it is the target's own reveal timer, that timer does set it to Visible,
and the schedule arms exactly one such timer per target. -/
theorem per_target_flag_once (ev : Event) (s : PageState) (g : Group) (i : Nat)
    (cards icons : List Elem) :
    (visible g i s = true → visible g i (applyEvent ev s) = true) ∧
    (visible g i (applyEvent ev s) ≠ visible g i s → ∃ d, ev = Event.fire ⟨g, i, d⟩) ∧
    (∀ d, i < (groupElems g s).length →
      visible g i (applyEvent (Event.fire ⟨g, i, d⟩) s) = true) ∧
    (i < (groupElems g { cards := cards, icons := icons }).length →
      ((setupPageLoadAnimations (some cards) (some icons)).timers.countP
        (fun t => decide (t.group = g ∧ t.index = i))) = 1) := by
  refine ⟨?_, ?_, ?_, ?_⟩
  · intro hvis
    rcases visible_applyEvent_cases ev s g i with heq | ⟨htrue, _⟩
    · rw [heq]
      exact hvis
    · exact htrue
  · intro hne
    rcases visible_applyEvent_cases ev s g i with heq | ⟨_, hd⟩
    · exact absurd heq hne
    · exact hd
  · intro d hlen
    cases g with
    | card =>
      show visible Group.card i { s with cards := modifyIdx cardReveal i s.cards } = true
      unfold visible groupElems
      rw [getElem?_modifyIdx_self,
        List.getElem?_eq_getElem (show i < s.cards.length from hlen)]
      rfl
    | icon =>
      show visible Group.icon i { s with icons := modifyIdx iconReveal i s.icons } = true
      unfold visible groupElems
      rw [getElem?_modifyIdx_self,
        List.getElem?_eq_getElem (show i < s.icons.length from hlen)]
      rfl
  · intro hlen
    rw [timers_append_eq, List.countP_append]
    cases g with
    | card =>
      have hicon : (iconTimers icons.length).countP
          (fun t => decide (t.group = Group.card ∧ t.index = i)) = 0 := by
        rw [List.countP_eq_zero]
        intro t ht
        simp only [iconTimers, List.mem_map, List.mem_range] at ht
        obtain ⟨j, _, rfl⟩ := ht
        simp
      have hcard : (cardTimers cards.length).countP
          (fun t => decide (t.group = Group.card ∧ t.index = i)) = 1 := by
        rw [cardTimers, List.countP_map]
        have hcomp : ((fun t => decide (t.group = Group.card ∧ t.index = i)) ∘
            (fun j => ({ group := Group.card, index := j, delay := cardDelay j } : Timer))) =
            (fun j => decide (j = i)) := by
          funext j
          simp
        rw [hcomp, countP_range_eq_value,
          if_pos (show i < cards.length from hlen)]
      rw [hicon, hcard]
    | icon =>
      have hcard : (cardTimers cards.length).countP
          (fun t => decide (t.group = Group.icon ∧ t.index = i)) = 0 := by
        rw [List.countP_eq_zero]
        intro t ht
        simp only [cardTimers, List.mem_map, List.mem_range] at ht
        obtain ⟨j, _, rfl⟩ := ht
        simp
      have hicon : (iconTimers icons.length).countP
          (fun t => decide (t.group = Group.icon ∧ t.index = i)) = 1 := by
        rw [iconTimers, List.countP_map]
        have hcomp : ((fun t => decide (t.group = Group.icon ∧ t.index = i)) ∘
            (fun j => ({ group := Group.icon, index := j, delay := iconDelay j } : Timer))) =
            (fun j => decide (j = i)) := by
          funext j
          simp
        rw [hcomp, countP_range_eq_value,
          if_pos (show i < icons.length from hlen)]
      rw [hicon, hcard]

/-- Witness for C7: the lone card's own timer makes it visible, and a
one-card one-icon schedule arms exactly one timer for the icon. -/
theorem per_target_flag_once_witness :
    visible Group.card 0 (applyEvent (Event.fire ⟨Group.card, 0, 800⟩)
      { cards := [blankElem], icons := [] }) = true ∧
    ((setupPageLoadAnimations (some [blankElem]) (some [blankElem])).timers.countP
      (fun t => decide (t.group = Group.icon ∧ t.index = 0))) = 1 :=
  ⟨(per_target_flag_once (Event.fire ⟨Group.card, 0, 800⟩)
      { cards := [blankElem], icons := [] } Group.card 0 [] []).2.2.1 800 (by decide),
   (per_target_flag_once (Event.fire ⟨Group.card, 0, 800⟩)
      { cards := [blankElem], icons := [] } Group.icon 0 [blankElem] [blankElem]).2.2.2
      (by decide)⟩

end LandingPage
